import Mathlib

/-!
Shallow embedding of the carcodillo vehicle-rental reservation core:
the BillingEngine (src/lib: billing-engine module), the availability
overlap queries, and the reservation API handlers
(src/app/api/reservations: POST create, PUT edit, DELETE cancel,
GET availability), over the Prisma data model (src/prisma/schema.prisma).

Conventions of the embedding:
- JS `Date` instants are modelled as UTC epoch milliseconds (`Int`);
  a missing or invalid (`NaN`) date is `Option.none`.
- JS floating-point money and rates are modelled as `ℚ`; the concrete
  test vectors of the spec are exact in both.
- `Math.ceil(x / 86400000)` on integer millisecond differences is the
  integer ceiling division (exact for all realistic date magnitudes).
- Breakdown description strings are kept, but JS number formatting
  (`toFixed`, template literals) is rendered with Lean's `toString`;
  no claim depends on the description text.
-/

/-- Millisecond timestamps, statuses and roles of schema.prisma. -/
inductive ReservationStatus
  | PENDING | CONFIRMED | CANCELLED | COMPLETED
deriving DecidableEq, Repr

inductive PaymentStatus
  | PENDING | COMPLETED | FAILED | REFUNDED | CANCELLED
deriving DecidableEq, Repr

inductive Role
  | GUEST | MEMBER | EMPLOYEE | ADMIN
deriving DecidableEq, Repr

/-- Tariff configuration entry (billing-engine `TariffConfig`);
`discount` is the signed rate: positive = discount, negative = surcharge. -/
structure TariffConfig where
  id : String
  name : String
  description : String
  discount : ℚ
deriving DecidableEq, Repr, Inhabited

/-- The static tariff table (`BillingEngine.tariffs`). -/
def tariffs : List TariffConfig :=
  [ { id := "BASIC", name := "Basic", description := "Standard", discount := 0 },
    { id := "DISCOUNTED", name := "Discounted", description := "For students and seniors",
      discount := 15/100 },
    { id := "EXCLUSIVE", name := "Exclusive", description := "Premium-Service",
      discount := -(25/100) } ]

/-- One line of the itemized price breakdown. -/
structure BreakdownLine where
  description : String
  amount : ℚ
deriving DecidableEq, Repr

/-- Result record of `BillingEngine.calculatePrice`. -/
structure BillingCalculation where
  basePrice : ℚ
  tariffAdjustment : ℚ
  totalPrice : ℚ
  breakdown : List BreakdownLine
deriving DecidableEq, Repr

/-- Milliseconds per day: the JS literal `1000 * 60 * 60 * 24`. -/
def msPerDay : Int := 86400000

/-- Integer ceiling division for a positive divisor:
`Math.ceil(a / b)` on exact integer inputs. -/
def ceilDiv (a b : Int) : Int := (a + b - 1) / b

/-- Billed day count: `Math.max(1, Math.ceil(timeDiff / msPerDay))`. -/
def billedDays (s e : Int) : Int := max 1 (ceilDiv (e - s) msPerDay)

/-- Tariff lookup: `this.tariffs.find((t) => t.id === tariffId) || this.tariffs[0]`. -/
def lookupTariff (tariffId : String) : TariffConfig :=
  (tariffs.find? (fun t => t.id == tariffId)).getD tariffs.headI

/-- Embeds `BillingEngine.calculatePrice` (src/lib billing engine).
Dates are `Option Int`: `none` models a missing argument or an invalid
`Date` (`isNaN(getTime())`), which yields the defensive zero result. -/
def calculatePrice (pricePerDay : ℚ) (startDate endDate : Option Int)
    (tariffId : String) : BillingCalculation :=
  match startDate, endDate with
  | some s, some e =>
    let days := billedDays s e
    let tariff := lookupTariff tariffId
    let basePrice := pricePerDay * (days : ℚ)
    let baseLine : BreakdownLine :=
      { description := "Base price (" ++ toString days ++ " days × €" ++ toString pricePerDay ++ ")",
        amount := basePrice }
    if tariff.discount ≠ 0 then
      let adj := basePrice * tariff.discount
      if 0 < tariff.discount then
        { basePrice := basePrice, tariffAdjustment := adj,
          totalPrice := basePrice + (-adj),
          breakdown := [baseLine,
            { description := tariff.name ++ " discount (" ++ toString (tariff.discount * 100) ++ "%)",
              amount := -adj }] }
      else
        { basePrice := basePrice, tariffAdjustment := adj,
          totalPrice := basePrice + |adj|,
          breakdown := [baseLine,
            { description := tariff.name ++ " surcharge (" ++ toString |tariff.discount * 100| ++ "%)",
              amount := |adj| }] }
    else
      { basePrice := basePrice, tariffAdjustment := 0,
        totalPrice := basePrice + (-(0 : ℚ)),
        breakdown := [baseLine] }
  | _, _ =>
    { basePrice := 0, tariffAdjustment := 0, totalPrice := 0, breakdown := [] }

/-- UTC epoch milliseconds of 2025-01-01T00:00:00Z (`new Date('2025-01-01')`). -/
def d20250101 : Int := 1735689600000

/-- UTC epoch milliseconds of 2025-01-02T00:00:00Z. -/
def d20250102 : Int := 1735776000000

/-- UTC epoch milliseconds of 2025-01-03T00:00:00Z. -/
def d20250103 : Int := 1735862400000

/-- UTC epoch milliseconds of 2025-01-06T00:00:00Z. -/
def d20250106 : Int := 1736121600000

/-- 2025-01-01T12:30:00 (any fixed zone offset cancels in differences). -/
def t20250101h1230 : Int := d20250101 + 45000000

/-- 2025-01-01T12:30:59, 59 seconds later. -/
def t20250101h123059 : Int := t20250101h1230 + 59000

/-- User row (schema.prisma `User`), reduced to the fields the
reservation routes read (`select: { id, role }`). -/
structure User where
  id : String
  role : Role
deriving DecidableEq, Repr

/-- Vehicle row, reduced to the fields the POST handler selects. -/
structure Vehicle where
  id : String
  name : String
  available : Bool
  location : String
  pricePerDay : ℚ
deriving DecidableEq, Repr

/-- Reservation row (schema.prisma `Reservation`); dates as epoch ms. -/
structure Reservation where
  id : String
  startDate : Int
  endDate : Int
  startTime : String
  endTime : String
  pickupLocation : String
  returnLocation : String
  status : ReservationStatus
  tariff : String
  totalPrice : ℚ
  userId : String
  vehicleId : String
deriving DecidableEq, Repr

/-- Payment row (schema.prisma `Payment`). -/
structure Payment where
  id : String
  amount : ℚ
  currency : String
  paymentMethod : String
  paymentStatus : PaymentStatus
  userId : String
  reservationId : String
deriving DecidableEq, Repr

/-- The persistent store visible to the reservation routes. Note that
schema.prisma declares no uniqueness or exclusion constraint on
`Reservation` (its only `@unique` is `Payment.reservationId`), so
inserting a reservation row is unconditional at the storage layer. -/
structure DB where
  users : List User
  vehicles : List Vehicle
  reservations : List Reservation
  payments : List Payment
deriving DecidableEq, Repr

/-- Authenticated caller (`session.user`), as the routes read it. -/
structure Session where
  userId : String
  role : Role
deriving DecidableEq, Repr

/-- Embeds `hasRequiredRole` (src/lib/auth.ts): membership of the
session role in the allowed-role array. -/
def hasRequiredRole (sess : Session) (allowedRoles : List Role) : Bool :=
  allowedRoles.contains sess.role

/-- The three-disjunct candidate condition of the overlap queries
(POST create, lines 448-461, and GET availability, lines 253-266 of the
reservations routes): existing range contains the query start, or
contains the query end, or lies within the query range. Arguments:
existing reservation range `[rs, re]`, query range `[qs, qe]`. -/
def overlapCond (rs re qs qe : Int) : Bool :=
  (decide (rs ≤ qs) && decide (re ≥ qs)) ||
  (decide (rs ≤ qe) && decide (re ≥ qe)) ||
  (decide (rs ≥ qs) && decide (re ≤ qe))

/-- The closed-interval overlap predicate of the spec (section 4.1):
`a.start <= b.end AND a.end >= b.start`. -/
def closedOverlapP (aS aE bS bE : Int) : Prop :=
  aS ≤ bE ∧ aE ≥ bS

instance (aS aE bS bE : Int) : Decidable (closedOverlapP aS aE bS bE) :=
  inferInstanceAs (Decidable (_ ∧ _))

/-- The POST handler's overlap query: active (PENDING or CONFIRMED)
reservations of the vehicle whose ranges satisfy the three-disjunct
candidate condition against the query range. -/
def findOverlapping (db : DB) (vehicleId : String) (qs qe : Int) : List Reservation :=
  db.reservations.filter fun r =>
    r.vehicleId == vehicleId &&
    (r.status == ReservationStatus.PENDING || r.status == ReservationStatus.CONFIRMED) &&
    overlapCond r.startDate r.endDate qs qe

/-- The GET availability handler: ids of vehicles with at least one
active reservation overlapping the query range, fleet-wide. -/
def listBookedVehicleIds (db : DB) (qs qe : Int) : List String :=
  (db.reservations.filter fun r =>
    (r.status == ReservationStatus.PENDING || r.status == ReservationStatus.CONFIRMED) &&
    overlapCond r.startDate r.endDate qs qe).map fun r => r.vehicleId

/-- The active reservations of one vehicle: status PENDING or CONFIRMED. -/
def activeRes (db : DB) (vehicleId : String) : List Reservation :=
  db.reservations.filter fun r =>
    r.vehicleId == vehicleId &&
    (r.status == ReservationStatus.PENDING || r.status == ReservationStatus.CONFIRMED)

/-- The global consistency invariant: for a vehicle, active reservations
are pairwise non-overlapping under the closed-interval predicate. -/
def PairwiseNonOverlap (db : DB) (vehicleId : String) : Prop :=
  (activeRes db vehicleId).Pairwise fun a b =>
    ¬ closedOverlapP a.startDate a.endDate b.startDate b.endDate

instance (db : DB) (vehicleId : String) : Decidable (PairwiseNonOverlap db vehicleId) :=
  inferInstanceAs (Decidable ((activeRes db vehicleId).Pairwise _))

/-- Request body of POST create. Dates are the parse results of the
body strings (`none` = field absent); other fields as sent. -/
structure CreateRequest where
  vehicleId : String
  startDate : Option Int
  endDate : Option Int
  startTime : String
  endTime : String
  pickupLocation : String
  returnLocation : String
  tariff : String
  totalPrice : ℚ
  paymentMethod : String
deriving DecidableEq, Repr

/-- The POST handler's required-fields test: JS falsy check on each
destructured field (empty string, absent date, `totalPrice === 0`). -/
def missingFields (req : CreateRequest) : Bool :=
  req.vehicleId == "" || req.startDate == none || req.endDate == none ||
  req.startTime == "" || req.endTime == "" ||
  req.pickupLocation == "" || req.returnLocation == "" ||
  req.tariff == "" || req.totalPrice == 0 || req.paymentMethod == ""

/-- Valid tariff ids (POST handler's `validTariffs`). -/
def validTariffs : List String := ["BASIC", "DISCOUNTED", "EXCLUSIVE"]

/-- Valid payment methods (POST handler's `validPaymentMethods`). -/
def validPaymentMethods : List String := ["CREDIT_CARD", "PAYPAL", "BANK_TRANSFER"]

/-- Typed rejections of the reservation routes, mirroring the JSON
error responses of the handlers. -/
inductive ApiError
  | Unauthorized
  | MissingFields
  | StartDateInPast
  | EndNotAfterStart
  | UserNotFound
  | VehicleNotFound
  | VehicleUnavailable
  | Conflict (conflictingIds : List String)
  | InvalidTariff
  | InvalidPaymentMethod
  | Internal
deriving DecidableEq, Repr

/-- The admission gates of POST create (reservations route, lines
361-485), in source order, up to but excluding the transactional write;
on success returns the session and the validated range. -/
def admissionCheck (db : DB) (session : Option Session) (now : Int)
    (req : CreateRequest) : Except ApiError (Session × Int × Int) :=
  match session with
  | none => .error .Unauthorized
  | some sess =>
    if ¬ hasRequiredRole sess [.MEMBER, .EMPLOYEE, .ADMIN] then .error .Unauthorized
    else if missingFields req then .error .MissingFields
    else
      match req.startDate, req.endDate with
      | some start, some stop =>
        if start < now then .error .StartDateInPast
        else if stop ≤ start then .error .EndNotAfterStart
        else if (db.users.find? fun u => u.id == sess.userId).isNone then .error .UserNotFound
        else
          match db.vehicles.find? fun v => v.id == req.vehicleId with
          | none => .error .VehicleNotFound
          | some vehicle =>
            if ¬ vehicle.available then .error .VehicleUnavailable
            else if 0 < (findOverlapping db req.vehicleId start stop).length then
              .error (.Conflict ((findOverlapping db req.vehicleId start stop).map fun r => r.id))
            else if ¬ validTariffs.contains req.tariff then .error .InvalidTariff
            else if ¬ validPaymentMethods.contains req.paymentMethod then .error .InvalidPaymentMethod
            else .ok (sess, start, stop)
      | _, _ => .error .MissingFields

/-- The reservation row the transaction inserts (`tx.reservation.create`). -/
def reservationRow (sess : Session) (req : CreateRequest) (start stop : Int)
    (rid : String) : Reservation :=
  { id := rid, startDate := start, endDate := stop,
    startTime := req.startTime, endTime := req.endTime,
    pickupLocation := req.pickupLocation, returnLocation := req.returnLocation,
    status := .PENDING, tariff := req.tariff, totalPrice := req.totalPrice,
    userId := sess.userId, vehicleId := req.vehicleId }

/-- The payment row the transaction inserts (`tx.payment.create`). -/
def paymentRow (sess : Session) (req : CreateRequest) (rid pid : String) : Payment :=
  { id := pid, amount := req.totalPrice, currency := "EUR",
    paymentMethod := req.paymentMethod, paymentStatus := .PENDING,
    userId := sess.userId, reservationId := rid }

/-- `prisma.$transaction` of the POST handler: the two inserts run as a
body whose storage-level failure (modelled by the two failure flags,
one per insert) rolls the whole body back: the returned state is the
original one on any failure. -/
def commitReservation (db : DB) (r : Reservation) (p : Payment)
    (failRes failPay : Bool) : DB × Except ApiError (Reservation × Payment) :=
  if failRes then (db, .error .Internal)
  else if failPay then (db, .error .Internal)
  else ({ db with reservations := db.reservations ++ [r],
                  payments := db.payments ++ [p] }, .ok (r, p))

/-- Embeds POST create (reservations route): the admission gates
followed by the transactional write. `rid`/`pid` stand for the
generated cuids; `failRes`/`failPay` model storage failure of the two
inserts inside the transaction. -/
def createReservation (db : DB) (session : Option Session) (now : Int)
    (req : CreateRequest) (rid pid : String) (failRes failPay : Bool) :
    DB × Except ApiError (Reservation × Payment) :=
  match admissionCheck db session now req with
  | .error e => (db, .error e)
  | .ok (sess, start, stop) =>
    commitReservation db (reservationRow sess req start stop rid)
      (paymentRow sess req rid pid) failRes failPay

/-- Request body of PUT edit: each field optional (JS falsy fields are
skipped when building `updateData`). -/
structure UpdateRequest where
  startDate : Option Int
  endDate : Option Int
  startTime : Option String
  endTime : Option String
  pickupLocation : Option String
  returnLocation : Option String
  tariff : Option String
  totalPrice : Option ℚ
  paymentMethod : Option String
  status : Option ReservationStatus
deriving DecidableEq, Repr

/-- An UpdateRequest with every field absent. -/
def emptyUpdate : UpdateRequest :=
  { startDate := none, endDate := none, startTime := none, endTime := none,
    pickupLocation := none, returnLocation := none, tariff := none,
    totalPrice := none, paymentMethod := none, status := none }

/-- Typed rejections of the PUT and DELETE handlers. -/
inductive EditError
  | Unauthorized
  | NotFound
  | AccessDenied
  | InvalidState
deriving DecidableEq, Repr

/-- The `updateData` assembly of the PUT handler: present fields
replace the stored ones; `status` is applied only for staff callers. -/
def applyUpdate (r : Reservation) (req : UpdateRequest) (isAdmin : Bool) : Reservation :=
  { r with
    status := if isAdmin then req.status.getD r.status else r.status,
    startDate := (req.startDate.map id).getD r.startDate,
    endDate := (req.endDate.map id).getD r.endDate,
    startTime := req.startTime.getD r.startTime,
    endTime := req.endTime.getD r.endTime,
    pickupLocation := req.pickupLocation.getD r.pickupLocation,
    returnLocation := req.returnLocation.getD r.returnLocation,
    tariff := req.tariff.getD r.tariff,
    totalPrice := req.totalPrice.getD r.totalPrice }

/-- Embeds PUT edit (single-reservation route, lines 78-179). The
handler loads the reservation, gates on ownership/role and (for
non-staff) on current status, then updates the row directly: no
availability or overlap re-check occurs anywhere in the handler. The
`paymentMethod` sub-update is unreachable in the source (its guard
reads `existingReservation.payment`, which the `findUnique` call never
includes), so it is omitted. -/
def updateReservation (db : DB) (session : Option Session) (id : String)
    (req : UpdateRequest) : DB × Except EditError Reservation :=
  match session with
  | none => (db, .error .Unauthorized)
  | some sess =>
    match db.reservations.find? fun r => r.id == id with
    | none => (db, .error .NotFound)
    | some r =>
      let isAdmin := hasRequiredRole sess [.ADMIN, .EMPLOYEE]
      let isOwner := sess.userId == r.userId
      if ¬ isAdmin && ¬ isOwner then (db, .error .AccessDenied)
      else if ¬ isAdmin &&
          ¬ (r.status == ReservationStatus.PENDING || r.status == ReservationStatus.CONFIRMED) then
        (db, .error .InvalidState)
      else
        let r' := applyUpdate r req isAdmin
        ({ db with reservations := db.reservations.map fun x => if x.id == id then r' else x },
         .ok r')

/-- Embeds DELETE cancel (single-reservation route, lines 184-226). The
handler gates on ownership/role and current status PENDING/CONFIRMED,
then runs `payment.updateMany` setting `paymentStatus` to REFUNDED; the
reservation row itself is never written (in particular its status is
not set to CANCELLED). -/
def cancelReservation (db : DB) (session : Option Session) (id : String) :
    DB × Except EditError Unit :=
  match session with
  | none => (db, .error .Unauthorized)
  | some sess =>
    match db.reservations.find? fun r => r.id == id with
    | none => (db, .error .NotFound)
    | some r =>
      let isAdmin := hasRequiredRole sess [.ADMIN, .EMPLOYEE]
      let isOwner := sess.userId == r.userId
      if ¬ isAdmin && ¬ isOwner then (db, .error .AccessDenied)
      else if ¬ (r.status == ReservationStatus.PENDING || r.status == ReservationStatus.CONFIRMED) then
        (db, .error .InvalidState)
      else
        ({ db with payments := db.payments.map fun p =>
            if p.reservationId == id then { p with paymentStatus := .REFUNDED } else p },
         .ok ())

/-- Epoch milliseconds of calendar day `n` of a test timeline. -/
def day (n : Int) : Int := n * 86400000

/-- Test fixture: the member who owns the fixture reservations. -/
def uOwner : User := { id := "u1", role := .MEMBER }

/-- Test fixture: a second member. -/
def uOther : User := { id := "u2", role := .MEMBER }

/-- Session of the owning member. -/
def sessOwner : Session := { userId := "u1", role := .MEMBER }

/-- Session of the second member. -/
def sessOther : Session := { userId := "u2", role := .MEMBER }

/-- Test fixture: an available vehicle. -/
def veh1 : Vehicle :=
  { id := "v1", name := "VW Golf", available := true, location := "Berlin", pricePerDay := 35 }

/-- Fixture reservation r1: vehicle v1, days 1-2, PENDING. -/
def resA : Reservation :=
  { id := "r1", startDate := day 1, endDate := day 2, startTime := "09:00", endTime := "18:00",
    pickupLocation := "Berlin", returnLocation := "Berlin", status := .PENDING,
    tariff := "BASIC", totalPrice := 100, userId := "u1", vehicleId := "v1" }

/-- Fixture reservation r2: vehicle v1, days 4-5, PENDING. -/
def resB : Reservation :=
  { id := "r2", startDate := day 4, endDate := day 5, startTime := "09:00", endTime := "18:00",
    pickupLocation := "Berlin", returnLocation := "Berlin", status := .PENDING,
    tariff := "BASIC", totalPrice := 100, userId := "u1", vehicleId := "v1" }

/-- Fixture store with the two non-overlapping active reservations. -/
def dbEdit : DB :=
  { users := [uOwner, uOther], vehicles := [veh1], reservations := [resA, resB], payments := [] }

/-- Fixture reservation in CONFIRMED status, for the cancel scenario. -/
def resConfirmed : Reservation :=
  { id := "r1", startDate := day 1, endDate := day 2, startTime := "09:00", endTime := "18:00",
    pickupLocation := "Berlin", returnLocation := "Berlin", status := .CONFIRMED,
    tariff := "BASIC", totalPrice := 100, userId := "u1", vehicleId := "v1" }

/-- Fixture payment attached to the CONFIRMED reservation. -/
def payConfirmed : Payment :=
  { id := "pay1", amount := 100, currency := "EUR", paymentMethod := "PAYPAL",
    paymentStatus := .COMPLETED, userId := "u1", reservationId := "r1" }

/-- Fixture store for the cancel scenario. -/
def dbCancel : DB :=
  { users := [uOwner], vehicles := [veh1], reservations := [resConfirmed],
    payments := [payConfirmed] }

/-- Fixture store with no reservations, for the create scenarios. -/
def dbEmpty : DB :=
  { users := [uOwner, uOther], vehicles := [veh1], reservations := [], payments := [] }

/-- Create request for vehicle v1, days 1-3. -/
def reqA : CreateRequest :=
  { vehicleId := "v1", startDate := some (day 1), endDate := some (day 3),
    startTime := "09:00", endTime := "18:00", pickupLocation := "Berlin",
    returnLocation := "Berlin", tariff := "BASIC", totalPrice := 70,
    paymentMethod := "PAYPAL" }

/-- Create request for vehicle v1, days 2-4, overlapping reqA's range. -/
def reqB : CreateRequest :=
  { vehicleId := "v1", startDate := some (day 2), endDate := some (day 4),
    startTime := "09:00", endTime := "18:00", pickupLocation := "Berlin",
    returnLocation := "Berlin", tariff := "BASIC", totalPrice := 70,
    paymentMethod := "PAYPAL" }

/-- Edit request moving a reservation onto days 1-2 (r1's exact range). -/
def editOntoR1 : UpdateRequest :=
  { emptyUpdate with startDate := some (day 1), endDate := some (day 2) }

/-- Edit request moving a reservation onto days 2-6 (overlapping r1 at day 2). -/
def editAcrossR1 : UpdateRequest :=
  { emptyUpdate with startDate := some (day 2), endDate := some (day 6) }

/-- The interleaved race of two concurrent POST requests A (days 1-3)
and B (days 2-4) on vehicle v1: both availability checks run against
the initial store (neither sees the other's insert, as under the
default read-committed isolation of the handlers' queries), then both
transactional inserts commit — the schema's lack of any uniqueness or
exclusion constraint on Reservation means nothing stops the second
insert. State after A's insert: -/
def dbRaceAfterA : DB :=
  (commitReservation dbEmpty (reservationRow sessOwner reqA (day 1) (day 3) "rA")
    (paymentRow sessOwner reqA "rA" "pA") false false).1

/-- State after B's insert follows A's: both reservations persisted. -/
def dbRaceFinal : DB :=
  (commitReservation dbRaceAfterA (reservationRow sessOther reqB (day 2) (day 4) "rB")
    (paymentRow sessOther reqB "rB" "pB") false false).1

/-- The closed-interval predicate implies the three-disjunct candidate
condition, unconditionally. -/
theorem closed_imp_overlapCond (rs re qs qe : Int)
    (h : closedOverlapP rs re qs qe) : overlapCond rs re qs qe = true := by
  simp only [closedOverlapP] at h
  simp only [overlapCond, Bool.or_eq_true, Bool.and_eq_true, decide_eq_true_eq]
  omega

/-- Characterization of a passing admission check: the caller is the
session, the validated range comes from the request, is non-empty, is
not in the past, and has no overlapping active reservation. -/
theorem admissionCheck_ok (db : DB) (session : Option Session) (now : Int)
    (req : CreateRequest) (sess : Session) (start stop : Int)
    (h : admissionCheck db session now req = .ok (sess, start, stop)) :
    session = some sess ∧ req.startDate = some start ∧ req.endDate = some stop ∧
    start < stop ∧ findOverlapping db req.vehicleId start stop = [] := by
  unfold admissionCheck at h
  cases session with
  | none => cases h
  | some s =>
    simp only at h
    split at h
    · cases h
    split at h
    · cases h
    split at h
    case h_2 => cases h
    case h_1 _ start' stop' hs he =>
      split at h
      · cases h
      split at h
      · cases h
      split at h
      · cases h
      split at h
      · cases h
      split at h
      · cases h
      split at h
      · cases h
      split at h
      · cases h
      split at h
      · cases h
      rename_i hnotpast hnotle _ _ _ hnoover _ _
      cases h
      refine ⟨rfl, hs, he, by omega, ?_⟩
      have : (findOverlapping db req.vehicleId start stop).length = 0 := by omega
      exact List.eq_nil_of_length_eq_zero this

/-- A successful create passed the admission check and appended exactly
the reservation and payment rows of the transaction. -/
theorem createReservation_ok (db : DB) (session : Option Session) (now : Int)
    (req : CreateRequest) (rid pid : String) (f1 f2 : Bool)
    (h : (createReservation db session now req rid pid f1 f2).2.isOk = true) :
    ∃ sess start stop,
      admissionCheck db session now req = .ok (sess, start, stop) ∧
      (createReservation db session now req rid pid f1 f2).1 =
        { db with reservations := db.reservations ++ [reservationRow sess req start stop rid],
                  payments := db.payments ++ [paymentRow sess req rid pid] } := by
  cases heq : admissionCheck db session now req with
  | error e =>
    simp [createReservation, heq, Except.isOk, Except.toBool] at h
  | ok triple =>
    obtain ⟨sess, start, stop⟩ := triple
    refine ⟨sess, start, stop, rfl, ?_⟩
    cases f1 with
    | true => simp [createReservation, heq, commitReservation, Except.isOk, Except.toBool] at h
    | false =>
      cases f2 with
      | true => simp [createReservation, heq, commitReservation, Except.isOk, Except.toBool] at h
      | false => simp [createReservation, heq, commitReservation]

/-- A successful create preserves pairwise non-overlap of the active
reservations of every vehicle: the appended row's range was checked
against every active row of its vehicle by the overlap gate. -/
theorem create_preserves (db : DB) (session : Option Session) (now : Int)
    (req : CreateRequest) (rid pid : String) (f1 f2 : Bool) (v : String)
    (hInv : PairwiseNonOverlap db v)
    (h : (createReservation db session now req rid pid f1 f2).2.isOk = true) :
    PairwiseNonOverlap (createReservation db session now req rid pid f1 f2).1 v := by
  obtain ⟨sess, start, stop, hadm, hdb⟩ := createReservation_ok db session now req rid pid f1 f2 h
  obtain ⟨hs, hsd, hse, hlt, hno⟩ := admissionCheck_ok db session now req sess start stop hadm
  rw [hdb]
  unfold PairwiseNonOverlap activeRes at hInv ⊢
  simp only [List.filter_append, List.pairwise_append]
  refine ⟨hInv, List.Pairwise.sublist (List.filter_sublist _) (by simp), ?_⟩
  intro a ha b hb
  rw [List.mem_filter] at ha hb
  obtain ⟨haMem, haCond⟩ := ha
  obtain ⟨hbMem, hbCond⟩ := hb
  have hb' : b = reservationRow sess req start stop rid := by simpa using hbMem
  subst hb'
  intro hclosed
  have hv : req.vehicleId = v := by
    simp only [reservationRow, Bool.and_eq_true, beq_iff_eq] at hbCond
    exact hbCond.1
  have hmem : a ∈ findOverlapping db req.vehicleId start stop := by
    rw [findOverlapping, List.mem_filter]
    refine ⟨haMem, ?_⟩
    simp only [Bool.and_eq_true] at haCond ⊢
    refine ⟨⟨?_, haCond.2⟩, ?_⟩
    · rw [hv]; exact haCond.1
    · exact closed_imp_overlapCond _ _ _ _ (by simpa [reservationRow] using hclosed)
  rw [hno] at hmem
  exact absurd hmem (List.not_mem_nil a)

/-- The DELETE handler never writes the reservation table. -/
theorem cancel_reservations_unchanged (db : DB) (session : Option Session) (id : String) :
    (cancelReservation db session id).1.reservations = db.reservations := by
  unfold cancelReservation
  cases session with
  | none => rfl
  | some sess =>
    cases hfind : db.reservations.find? fun r => r.id == id with
    | none => simp [hfind]
    | some r =>
      simp only [hfind]
      split
      · rfl
      split
      · rfl
      · rfl

/-- C1 counterexample: the store dbEdit satisfies the invariant for
vehicle v1, yet the PUT edit moving r2 onto r1's exact range is
accepted and the resulting store violates pairwise non-overlap — so
not every core operation preserves the invariant. -/
theorem c1_edit_breaks_invariant_cex :
    PairwiseNonOverlap dbEdit "v1" ∧
    (updateReservation dbEdit (some sessOwner) "r2" editOntoR1).2.isOk = true ∧
    ¬ PairwiseNonOverlap (updateReservation dbEdit (some sessOwner) "r2" editOntoR1).1 "v1" := by
  decide

/-- C1 (amended): reservation create and cancel preserve the
per-vehicle pairwise non-overlap invariant; edit does not re-check
overlaps and can break it (see the counterexample). -/
theorem c1_create_cancel_preserve_nonoverlap :
    (∀ (db : DB) (session : Option Session) (now : Int) (req : CreateRequest)
       (rid pid : String) (f1 f2 : Bool) (v : String),
       PairwiseNonOverlap db v →
       (createReservation db session now req rid pid f1 f2).2.isOk = true →
       PairwiseNonOverlap (createReservation db session now req rid pid f1 f2).1 v) ∧
    (∀ (db : DB) (session : Option Session) (id v : String),
       PairwiseNonOverlap db v →
       PairwiseNonOverlap (cancelReservation db session id).1 v) := by
  constructor
  · intro db session now req rid pid f1 f2 v hInv h
    exact create_preserves db session now req rid pid f1 f2 v hInv h
  · intro db session id v hInv
    unfold PairwiseNonOverlap activeRes at hInv ⊢
    rw [cancel_reservations_unchanged]
    exact hInv

/-- Witness for C1: a concrete successful create and a concrete cancel,
both landing in invariant-satisfying stores. -/
theorem c1_create_cancel_preserve_nonoverlap_witness :
    PairwiseNonOverlap (createReservation dbEmpty (some sessOwner) 0 reqA "rA" "pA" false false).1 "v1" ∧
    PairwiseNonOverlap (cancelReservation dbCancel (some sessOwner) "r1").1 "v1" :=
  ⟨c1_create_cancel_preserve_nonoverlap.1 dbEmpty (some sessOwner) 0 reqA "rA" "pA" false false "v1"
      (by decide) (by decide),
   c1_create_cancel_preserve_nonoverlap.2 dbCancel (some sessOwner) "r1" "v1" (by decide)⟩

/-- C2 counterexample: moving r2 onto days 2-6 overlaps the other
active reservation r1 (days 1-2) of the same vehicle under the
closed-interval predicate, yet the PUT edit succeeds instead of being
rejected with Conflict: no availability gate re-runs on edit. -/
theorem c2_edit_overlap_accepted_cex :
    closedOverlapP (day 2) (day 6) resA.startDate resA.endDate ∧
    resA.status = ReservationStatus.PENDING ∧
    resA.vehicleId = resB.vehicleId ∧ resA.id ≠ resB.id ∧
    (updateReservation dbEdit (some sessOwner) "r2" editAcrossR1).2.isOk = true := by
  decide

/-- C2 (amended): the PUT edit runs none of the creation admission
gates. With the reservation loaded, acceptance is characterized by
ownership/staff role and (for non-staff) current status alone — the
proposed date range, and every other reservation, are irrelevant, so
overlapping edits are accepted rather than rejected with Conflict
(and, trivially, self-overlapping edits succeed). -/
theorem c2_edit_acceptance_ignores_overlap (db : DB) (sess : Session) (id : String)
    (req : UpdateRequest) (r : Reservation)
    (hfind : db.reservations.find? (fun x => x.id == id) = some r) :
    (updateReservation db (some sess) id req).2.isOk = true ↔
      ((hasRequiredRole sess [.ADMIN, .EMPLOYEE] = true ∨ sess.userId = r.userId) ∧
       (hasRequiredRole sess [.ADMIN, .EMPLOYEE] = true ∨
         r.status = .PENDING ∨ r.status = .CONFIRMED)) := by
  unfold updateReservation
  simp only [hfind]
  by_cases hA : hasRequiredRole sess [Role.ADMIN, Role.EMPLOYEE] = true
  · simp [hA, Except.isOk, Except.toBool]
  · by_cases hO : sess.userId = r.userId
    · by_cases hS : r.status = ReservationStatus.PENDING ∨ r.status = ReservationStatus.CONFIRMED
      · rcases hS with hS | hS <;> simp [hA, hO, hS, Except.isOk, Except.toBool]
      · have h1 : r.status ≠ ReservationStatus.PENDING := fun hc => hS (Or.inl hc)
        have h2 : r.status ≠ ReservationStatus.CONFIRMED := fun hc => hS (Or.inr hc)
        simp [hA, hO, h1, h2, Except.isOk, Except.toBool]
    · simp [hA, hO, Except.isOk, Except.toBool]

/-- Witness for C2: at the concrete fixture, the owner's overlapping
edit of r2 is characterized as accepted. -/
theorem c2_edit_acceptance_ignores_overlap_witness :
    (updateReservation dbEdit (some sessOwner) "r2" editAcrossR1).2.isOk = true ↔
      ((hasRequiredRole sessOwner [.ADMIN, .EMPLOYEE] = true ∨ sessOwner.userId = resB.userId) ∧
       (hasRequiredRole sessOwner [.ADMIN, .EMPLOYEE] = true ∨
         resB.status = .PENDING ∨ resB.status = .CONFIRMED)) :=
  c2_edit_acceptance_ignores_overlap dbEdit sessOwner "r2" editAcrossR1 resB (by decide)

/-- C3: evaluation of the DELETE handler at the failing input. The
first cancel of the CONFIRMED reservation succeeds and refunds the
payment, but the reservation row is untouched (status still CONFIRMED,
not CANCELLED), and a second cancel of the same reservation succeeds
again instead of failing with InvalidState. -/
theorem c3_cancel_never_sets_cancelled :
    (cancelReservation dbCancel (some sessOwner) "r1").2.isOk = true ∧
    (cancelReservation dbCancel (some sessOwner) "r1").1.reservations = [resConfirmed] ∧
    resConfirmed.status = ReservationStatus.CONFIRMED ∧
    (cancelReservation dbCancel (some sessOwner) "r1").1.payments =
      [{ payConfirmed with paymentStatus := .REFUNDED }] ∧
    (cancelReservation (cancelReservation dbCancel (some sessOwner) "r1").1
      (some sessOwner) "r1").2.isOk = true := by
  decide

/-- C4 counterexample: the interleaved race of requests A and B (both
availability checks against the initial store, then both inserts, which
nothing at the storage layer blocks) lets both overlapping reservations
persist: the final active set for v1 contains an overlapping pair, so
it is not the case that at most one of the two attempts persists. -/
theorem c4_race_both_persist_cex :
    (admissionCheck dbEmpty (some sessOwner) 0 reqA).isOk = true ∧
    (admissionCheck dbEmpty (some sessOther) 0 reqB).isOk = true ∧
    (commitReservation dbEmpty (reservationRow sessOwner reqA (day 1) (day 3) "rA")
      (paymentRow sessOwner reqA "rA" "pA") false false).2.isOk = true ∧
    (commitReservation dbRaceAfterA (reservationRow sessOther reqB (day 2) (day 4) "rB")
      (paymentRow sessOther reqB "rB" "pB") false false).2.isOk = true ∧
    ¬ PairwiseNonOverlap dbRaceFinal "v1" := by
  decide

/-- C4 (amended): with no storage-layer constraint, only the in-process
check guards creation, which gives the sequential guarantee only: a
create for a vehicle that already has an active reservation overlapping
the requested range never succeeds. -/
theorem c4_sequential_overlap_never_persists (db : DB) (session : Option Session)
    (now : Int) (req : CreateRequest) (rid pid : String) (f1 f2 : Bool)
    (a : Reservation) (start stop : Int)
    (ha : a ∈ db.reservations) (hv : a.vehicleId = req.vehicleId)
    (hst : a.status = .PENDING ∨ a.status = .CONFIRMED)
    (hsd : req.startDate = some start) (hse : req.endDate = some stop)
    (hov : closedOverlapP a.startDate a.endDate start stop) :
    (createReservation db session now req rid pid f1 f2).2.isOk = false := by
  by_contra hcontra
  rw [Bool.not_eq_false] at hcontra
  obtain ⟨sess, start', stop', hadm, -⟩ :=
    createReservation_ok db session now req rid pid f1 f2 hcontra
  obtain ⟨-, hsd', hse', -, hno⟩ :=
    admissionCheck_ok db session now req sess start' stop' hadm
  rw [hsd] at hsd'
  rw [hse] at hse'
  obtain rfl : start = start' := Option.some.inj hsd'
  obtain rfl : stop = stop' := Option.some.inj hse'
  have hmem : a ∈ findOverlapping db req.vehicleId start stop := by
    rw [findOverlapping, List.mem_filter]
    refine ⟨ha, ?_⟩
    simp only [Bool.and_eq_true, Bool.or_eq_true, beq_iff_eq]
    exact ⟨⟨hv, hst⟩, closed_imp_overlapCond _ _ _ _ hov⟩
  rw [hno] at hmem
  exact absurd hmem (List.not_mem_nil a)

/-- Witness for C4 (amended): creating days 1-3 on v1 while the active
reservation r1 (days 1-2) exists does not succeed. -/
theorem c4_sequential_overlap_never_persists_witness :
    (createReservation dbEdit (some sessOther) 0 reqA "rX" "pX" false false).2.isOk = false :=
  c4_sequential_overlap_never_persists dbEdit (some sessOther) 0 reqA "rX" "pX" false false
    resA (day 1) (day 3) (by decide) (by decide) (by decide) (by decide) (by decide) (by decide)

/-- C5: for well-formed ranges the three-disjunct candidate condition
of the overlap queries is exactly the closed-interval predicate
`a.start <= b.end AND a.end >= b.start`; the closed predicate is
symmetric; and a range ending on day D overlaps one starting on day D. -/
theorem c5_overlap_disjuncts_equiv_closed :
    (∀ rs re qs qe : Int, rs ≤ re → qs ≤ qe →
       (overlapCond rs re qs qe = true ↔ closedOverlapP rs re qs qe)) ∧
    (∀ rs re qs qe : Int, closedOverlapP rs re qs qe ↔ closedOverlapP qs qe rs re) ∧
    (∀ s1 dd e2 : Int, s1 ≤ dd → dd ≤ e2 → closedOverlapP s1 dd dd e2) := by
  refine ⟨?_, ?_, ?_⟩ <;> intros <;>
    simp_all only [overlapCond, closedOverlapP, Bool.or_eq_true, Bool.and_eq_true,
      decide_eq_true_eq] <;>
    omega

/-- Witness for C5 at concrete ranges, including the shared-boundary
case of days 1-3 against days 3-5. -/
theorem c5_overlap_disjuncts_equiv_closed_witness :
    (overlapCond 0 5 3 9 = true ↔ closedOverlapP 0 5 3 9) ∧
    (closedOverlapP 0 5 3 9 ↔ closedOverlapP 3 9 0 5) ∧
    closedOverlapP (day 1) (day 3) (day 3) (day 5) :=
  ⟨c5_overlap_disjuncts_equiv_closed.1 0 5 3 9 (by decide) (by decide),
   c5_overlap_disjuncts_equiv_closed.2.1 0 5 3 9,
   c5_overlap_disjuncts_equiv_closed.2.2 (day 1) (day 3) (day 5) (by decide) (by decide)⟩

/-- C6: the transactional write of POST create is atomic: either the
result is exactly the original store extended with the new reservation
(status PENDING) and its payment (status PENDING, amount equal to the
reservation's totalPrice), or the store is unchanged and an error is
returned — no reachable state holds the reservation without its
payment. -/
theorem c6_create_atomic (db : DB) (session : Option Session) (now : Int)
    (req : CreateRequest) (rid pid : String) (f1 f2 : Bool) :
    (∃ r p, createReservation db session now req rid pid f1 f2 =
        ({ db with reservations := db.reservations ++ [r], payments := db.payments ++ [p] },
         .ok (r, p)) ∧
      r.status = ReservationStatus.PENDING ∧ p.paymentStatus = PaymentStatus.PENDING ∧
      p.amount = r.totalPrice) ∨
    ((createReservation db session now req rid pid f1 f2).1 = db ∧
     ∃ e, (createReservation db session now req rid pid f1 f2).2 = .error e) := by
  cases heq : admissionCheck db session now req with
  | error e => right; simp [createReservation, heq]
  | ok triple =>
    obtain ⟨sess, start, stop⟩ := triple
    cases f1 with
    | true => right; simp [createReservation, heq, commitReservation]
    | false =>
      cases f2 with
      | true => right; simp [createReservation, heq, commitReservation]
      | false =>
        left
        exact ⟨reservationRow sess req start stop rid, paymentRow sess req rid pid,
          by simp [createReservation, heq, commitReservation], rfl, rfl, rfl⟩

/-- The base price is always the daily rate times the billed day count,
whatever the tariff. -/
theorem calculatePrice_basePrice (p : ℚ) (s e : Int) (tid : String) :
    (calculatePrice p (some s) (some e) tid).basePrice = p * (billedDays s e : ℚ) := by
  simp only [calculatePrice]
  split
  · split <;> rfl
  · rfl

/-- The billed day count is the ceiling of the millisecond difference
over 24h, floored at one: it is the least day count covering the
difference, and never less than 1. -/
theorem billedDays_spec (s e : Int) :
    1 ≤ billedDays s e ∧ e - s ≤ billedDays s e * msPerDay ∧
    (billedDays s e = 1 ∨ (billedDays s e - 1) * msPerDay < e - s) := by
  simp only [billedDays, ceilDiv, msPerDay]
  omega

/-- With valid dates the breakdown always contains the base line. -/
theorem calculatePrice_breakdown_ne_nil (p : ℚ) (s e : Int) (tid : String) :
    (calculatePrice p (some s) (some e) tid).breakdown ≠ [] := by
  simp only [calculatePrice]
  split
  · split <;> simp
  · simp

/-- A zero-rate tariff yields no adjustment, total equal to base, and a
single breakdown line. -/
theorem calculatePrice_zero_rate (p : ℚ) (s e : Int) (tid : String)
    (h : (lookupTariff tid).discount = 0) :
    (calculatePrice p (some s) (some e) tid).tariffAdjustment = 0 ∧
    (calculatePrice p (some s) (some e) tid).totalPrice =
      (calculatePrice p (some s) (some e) tid).basePrice ∧
    (calculatePrice p (some s) (some e) tid).breakdown.length = 1 := by
  simp only [calculatePrice, h]
  norm_num

/-- A positive-rate (discount) tariff: adjustment is base times rate,
total is base minus adjustment, two breakdown lines. -/
theorem calculatePrice_pos_rate (p : ℚ) (s e : Int) (tid : String)
    (h : 0 < (lookupTariff tid).discount) :
    (calculatePrice p (some s) (some e) tid).tariffAdjustment =
      (calculatePrice p (some s) (some e) tid).basePrice * (lookupTariff tid).discount ∧
    (calculatePrice p (some s) (some e) tid).totalPrice =
      (calculatePrice p (some s) (some e) tid).basePrice -
        (calculatePrice p (some s) (some e) tid).tariffAdjustment ∧
    (calculatePrice p (some s) (some e) tid).breakdown.length = 2 := by
  have hne : (lookupTariff tid).discount ≠ 0 := ne_of_gt h
  simp only [calculatePrice]
  rw [if_pos hne, if_pos h]
  exact ⟨rfl, (sub_eq_add_neg _ _).symm, rfl⟩

/-- A negative-rate (surcharge) tariff: adjustment is base times rate,
total is base plus the absolute adjustment, two breakdown lines. -/
theorem calculatePrice_neg_rate (p : ℚ) (s e : Int) (tid : String)
    (h : (lookupTariff tid).discount < 0) :
    (calculatePrice p (some s) (some e) tid).tariffAdjustment =
      (calculatePrice p (some s) (some e) tid).basePrice * (lookupTariff tid).discount ∧
    (calculatePrice p (some s) (some e) tid).totalPrice =
      (calculatePrice p (some s) (some e) tid).basePrice +
        |(calculatePrice p (some s) (some e) tid).tariffAdjustment| ∧
    (calculatePrice p (some s) (some e) tid).breakdown.length = 2 := by
  have hne : (lookupTariff tid).discount ≠ 0 := ne_of_lt h
  simp only [calculatePrice]
  rw [if_pos hne, if_neg (not_lt.mpr (le_of_lt h))]
  exact ⟨rfl, rfl, rfl⟩

/-- The base price is positive when the daily rate is. -/
theorem calculatePrice_basePrice_pos (p : ℚ) (s e : Int) (tid : String) (hp : 0 < p) :
    0 < (calculatePrice p (some s) (some e) tid).basePrice := by
  rw [calculatePrice_basePrice]
  have h1 : (1 : ℚ) ≤ ((billedDays s e : Int) : ℚ) := by
    exact_mod_cast (billedDays_spec s e).1
  exact mul_pos hp (lt_of_lt_of_le one_pos h1)

/-- C7: sign convention of the tariff adjustment. For any table tariff
with positive rate, the adjustment equals base times rate (positive for
a positive daily rate) and is subtracted; for negative rate, the
adjustment is negative and its absolute value is added; both add a
second breakdown line. The two concrete spec vectors evaluate exactly. -/
theorem c7_tariff_adjustment_sign_convention :
    (∀ (p : ℚ) (s e : Int) (tid : String) (t : TariffConfig),
       tariffs.find? (fun c => c.id == tid) = some t → 0 < t.discount →
       (calculatePrice p (some s) (some e) tid).tariffAdjustment =
         (calculatePrice p (some s) (some e) tid).basePrice * t.discount ∧
       (0 < p → 0 < (calculatePrice p (some s) (some e) tid).tariffAdjustment) ∧
       (calculatePrice p (some s) (some e) tid).totalPrice =
         (calculatePrice p (some s) (some e) tid).basePrice -
           (calculatePrice p (some s) (some e) tid).tariffAdjustment ∧
       (calculatePrice p (some s) (some e) tid).breakdown.length = 2) ∧
    (∀ (p : ℚ) (s e : Int) (tid : String) (t : TariffConfig),
       tariffs.find? (fun c => c.id == tid) = some t → t.discount < 0 →
       (calculatePrice p (some s) (some e) tid).tariffAdjustment =
         (calculatePrice p (some s) (some e) tid).basePrice * t.discount ∧
       (0 < p → (calculatePrice p (some s) (some e) tid).tariffAdjustment < 0) ∧
       (calculatePrice p (some s) (some e) tid).totalPrice =
         (calculatePrice p (some s) (some e) tid).basePrice +
           |(calculatePrice p (some s) (some e) tid).tariffAdjustment| ∧
       (calculatePrice p (some s) (some e) tid).breakdown.length = 2) ∧
    (billedDays d20250101 d20250106 = 5 ∧
     (calculatePrice 40 (some d20250101) (some d20250106) "DISCOUNTED").basePrice = 200 ∧
     (calculatePrice 40 (some d20250101) (some d20250106) "DISCOUNTED").tariffAdjustment = 30 ∧
     (calculatePrice 40 (some d20250101) (some d20250106) "DISCOUNTED").totalPrice = 170 ∧
     (calculatePrice 40 (some d20250101) (some d20250106) "DISCOUNTED").breakdown.length = 2) ∧
    (billedDays d20250101 d20250103 = 2 ∧
     (calculatePrice 100 (some d20250101) (some d20250103) "EXCLUSIVE").basePrice = 200 ∧
     (calculatePrice 100 (some d20250101) (some d20250103) "EXCLUSIVE").tariffAdjustment = -50 ∧
     (calculatePrice 100 (some d20250101) (some d20250103) "EXCLUSIVE").totalPrice = 250 ∧
     (calculatePrice 100 (some d20250101) (some d20250103) "EXCLUSIVE").breakdown.length = 2) := by
  refine ⟨?_, ?_, ?_, ?_⟩
  · intro p s e tid t hfind ht
    have hl : lookupTariff tid = t := by rw [lookupTariff, hfind]; rfl
    have h' : 0 < (lookupTariff tid).discount := by rw [hl]; exact ht
    obtain ⟨h1, h2, h3⟩ := calculatePrice_pos_rate p s e tid h'
    refine ⟨by rw [h1, hl], ?_, h2, h3⟩
    intro hp
    rw [h1]
    exact mul_pos (calculatePrice_basePrice_pos p s e tid hp) h'
  · intro p s e tid t hfind ht
    have hl : lookupTariff tid = t := by rw [lookupTariff, hfind]; rfl
    have h' : (lookupTariff tid).discount < 0 := by rw [hl]; exact ht
    obtain ⟨h1, h2, h3⟩ := calculatePrice_neg_rate p s e tid h'
    refine ⟨by rw [h1, hl], ?_, h2, h3⟩
    intro hp
    rw [h1]
    exact mul_neg_of_pos_of_neg (calculatePrice_basePrice_pos p s e tid hp) h'
  · have hd : billedDays d20250101 d20250106 = 5 := by decide
    have hl : lookupTariff "DISCOUNTED" =
        { id := "DISCOUNTED", name := "Discounted", description := "For students and seniors",
          discount := 15/100 } := rfl
    refine ⟨hd, ?_⟩
    norm_num [calculatePrice, hl, hd]
  · have hd : billedDays d20250101 d20250103 = 2 := by decide
    have hl : lookupTariff "EXCLUSIVE" =
        { id := "EXCLUSIVE", name := "Exclusive", description := "Premium-Service",
          discount := -(25/100) } := rfl
    refine ⟨hd, ?_⟩
    norm_num [calculatePrice, hl, hd]

/-- Witness for C7: the sign-convention equations at the two concrete
spec vectors. -/
theorem c7_tariff_adjustment_sign_convention_witness :
    (calculatePrice 40 (some d20250101) (some d20250106) "DISCOUNTED").tariffAdjustment =
      (calculatePrice 40 (some d20250101) (some d20250106) "DISCOUNTED").basePrice * (15/100) ∧
    (calculatePrice 100 (some d20250101) (some d20250103) "EXCLUSIVE").tariffAdjustment =
      (calculatePrice 100 (some d20250101) (some d20250103) "EXCLUSIVE").basePrice * (-(25/100)) :=
  ⟨(c7_tariff_adjustment_sign_convention.1 40 d20250101 d20250106 "DISCOUNTED"
      { id := "DISCOUNTED", name := "Discounted", description := "For students and seniors",
        discount := 15/100 } rfl (by norm_num)).1,
   (c7_tariff_adjustment_sign_convention.2.1 100 d20250101 d20250103 "EXCLUSIVE"
      { id := "EXCLUSIVE", name := "Exclusive", description := "Premium-Service",
        discount := -(25/100) } rfl (by norm_num)).1⟩

/-- C8: for every daily rate and valid dates, the base price is the
rate times the billed day count, which is the minimum-1 ceiling of the
wall-clock millisecond difference over 24h; a difference of 24h or less
bills exactly one day; the 59-second concrete vector bills one day. -/
theorem c8_day_count_minimum_one_ceiling :
    (∀ (p : ℚ) (s e : Int) (tid : String),
       (calculatePrice p (some s) (some e) tid).basePrice = p * (billedDays s e : ℚ) ∧
       1 ≤ billedDays s e ∧ e - s ≤ billedDays s e * msPerDay ∧
       (billedDays s e = 1 ∨ (billedDays s e - 1) * msPerDay < e - s)) ∧
    (∀ (p : ℚ) (s e : Int) (tid : String), e - s ≤ msPerDay →
       billedDays s e = 1 ∧ (calculatePrice p (some s) (some e) tid).basePrice = p) ∧
    ((calculatePrice 50 (some t20250101h1230) (some t20250101h123059) "BASIC").basePrice = 50 ∧
     (calculatePrice 50 (some t20250101h1230) (some t20250101h123059) "BASIC").totalPrice = 50) := by
  refine ⟨?_, ?_, ?_⟩
  · intro p s e tid
    obtain ⟨a, b, c⟩ := billedDays_spec s e
    exact ⟨calculatePrice_basePrice p s e tid, a, b, c⟩
  · intro p s e tid h
    have h1 : billedDays s e = 1 := by
      simp only [billedDays, ceilDiv, msPerDay] at *
      omega
    refine ⟨h1, ?_⟩
    rw [calculatePrice_basePrice, h1]
    norm_num
  · have h1 : billedDays t20250101h1230 t20250101h123059 = 1 := by decide
    have hl : lookupTariff "BASIC" =
        { id := "BASIC", name := "Basic", description := "Standard", discount := 0 } := rfl
    constructor
    · rw [calculatePrice_basePrice, h1]; norm_num
    · norm_num [calculatePrice, hl, h1]

/-- Witness for C8: a one-hour rental bills exactly one day. -/
theorem c8_day_count_minimum_one_ceiling_witness :
    billedDays 0 3600000 = 1 ∧
    (calculatePrice 50 (some 0) (some 3600000) "BASIC").basePrice = 50 :=
  c8_day_count_minimum_one_ceiling.2.1 50 0 3600000 "BASIC" (by decide)

/-- C9: an unknown tariff id falls back to the BASIC entry: the result
is identical to BASIC's, with zero adjustment, total equal to base, and
a single breakdown line — never a failure. -/
theorem c9_unknown_tariff_falls_back_to_basic (p : ℚ) (s e : Int) (tid : String)
    (h : tid ∉ ["BASIC", "DISCOUNTED", "EXCLUSIVE"]) :
    calculatePrice p (some s) (some e) tid = calculatePrice p (some s) (some e) "BASIC" ∧
    (calculatePrice p (some s) (some e) tid).tariffAdjustment = 0 ∧
    (calculatePrice p (some s) (some e) tid).totalPrice =
      (calculatePrice p (some s) (some e) tid).basePrice ∧
    (calculatePrice p (some s) (some e) tid).breakdown.length = 1 := by
  have h1 : tid ≠ "BASIC" := fun hc => h (by rw [hc]; simp)
  have h2 : tid ≠ "DISCOUNTED" := fun hc => h (by rw [hc]; simp)
  have h3 : tid ≠ "EXCLUSIVE" := fun hc => h (by rw [hc]; simp)
  have b1 : ("BASIC" == tid) = false := beq_eq_false_iff_ne.mpr (Ne.symm h1)
  have b2 : ("DISCOUNTED" == tid) = false := beq_eq_false_iff_ne.mpr (Ne.symm h2)
  have b3 : ("EXCLUSIVE" == tid) = false := beq_eq_false_iff_ne.mpr (Ne.symm h3)
  have hfind : tariffs.find? (fun c => c.id == tid) = none := by
    simp [tariffs, List.find?, b1, b2, b3]
  have hl : lookupTariff tid = tariffs.headI := by rw [lookupTariff, hfind]; rfl
  have hz : (lookupTariff tid).discount = 0 := by rw [hl]; rfl
  obtain ⟨z1, z2, z3⟩ := calculatePrice_zero_rate p s e tid hz
  refine ⟨?_, z1, z2, z3⟩
  have hlB : lookupTariff "BASIC" = tariffs.headI := rfl
  simp only [calculatePrice, hl, hlB]

/-- Witness for C9: tariff id UNKNOWN behaves as BASIC. -/
theorem c9_unknown_tariff_falls_back_to_basic_witness :
    calculatePrice 50 (some d20250101) (some d20250102) "UNKNOWN" =
      calculatePrice 50 (some d20250101) (some d20250102) "BASIC" ∧
    (calculatePrice 50 (some d20250101) (some d20250102) "UNKNOWN").tariffAdjustment = 0 ∧
    (calculatePrice 50 (some d20250101) (some d20250102) "UNKNOWN").totalPrice =
      (calculatePrice 50 (some d20250101) (some d20250102) "UNKNOWN").basePrice ∧
    (calculatePrice 50 (some d20250101) (some d20250102) "UNKNOWN").breakdown.length = 1 :=
  c9_unknown_tariff_falls_back_to_basic 50 d20250101 d20250102 "UNKNOWN" (by decide)

/-- C10: with valid dates and end not after start, the day case never
fails or zeroes out: exactly one day is billed (base price equals the
daily rate times one) and the breakdown is nonempty; the zero result
(empty breakdown) occurs only for a missing or invalid date. -/
theorem c10_end_not_after_start_bills_one_day :
    (∀ (p : ℚ) (s e : Int) (tid : String), e ≤ s →
       billedDays s e = 1 ∧
       (calculatePrice p (some s) (some e) tid).basePrice = p * 1 ∧
       (calculatePrice p (some s) (some e) tid).breakdown ≠ []) ∧
    (∀ (p : ℚ) (sd ed : Option Int) (tid : String),
       (calculatePrice p sd ed tid).breakdown = [] → sd = none ∨ ed = none) := by
  constructor
  · intro p s e tid h
    have h1 : billedDays s e = 1 := by
      simp only [billedDays, ceilDiv, msPerDay]
      omega
    refine ⟨h1, ?_, calculatePrice_breakdown_ne_nil p s e tid⟩
    rw [calculatePrice_basePrice, h1]
    norm_num
  · intro p sd ed tid h
    cases sd with
    | none => exact Or.inl rfl
    | some s =>
      cases ed with
      | none => exact Or.inr rfl
      | some e => exact absurd h (calculatePrice_breakdown_ne_nil p s e tid)

/-- Witness for C10: a reversed range bills one day; a missing start
date is the only way to the empty breakdown. -/
theorem c10_end_not_after_start_bills_one_day_witness :
    (billedDays (day 2) (day 1) = 1 ∧
     (calculatePrice 50 (some (day 2)) (some (day 1)) "BASIC").basePrice = 50 * 1 ∧
     (calculatePrice 50 (some (day 2)) (some (day 1)) "BASIC").breakdown ≠ []) ∧
    ((none : Option Int) = none ∨ (some (day 1) : Option Int) = none) :=
  ⟨c10_end_not_after_start_bills_one_day.1 50 (day 2) (day 1) "BASIC" (by decide),
   c10_end_not_after_start_bills_one_day.2 50 none (some (day 1)) "BASIC" rfl⟩
